import Mathlib

/-!
Verification of the two utilities of this repository against their
natural-language specification.

* `src/implementation/adaptive_neural_networks.py` — the "Context Scorer"
  (`AdaptiveVagusNetwork`): `assess_context` turns a nested mapping of named
  numeric inputs into a `ContextAssessment`, and `modulate_tone` computes four
  clamped per-factor scores, a clamped combined target, and exponentially
  smooths the persisted `current_tone` toward that target.

* `src/validation/doubt_validation_system.py` — the "Tiered Checklist
  Evaluator" (`RecursiveDoubtValidator`): seven static `DoubtLevel`s;
  `validate_doubt_level` resolves a canned outcome string and a confidence
  for each question of a level, averages the confidences and classifies the
  level against its threshold, appending the result to a history that
  `generate_maximum_truth_report` summarizes.

Numbers are embedded as `ℚ` (the Python code computes with floats, but every
constant in the source is a short decimal and no claim hinges on float
rounding).  Python dicts are embedded as insertion lists with
last-insertion-wins lookup, which matches both dict literals with duplicate
keys and dict assignment.  Console printing (including the syntactically
malformed `print` lines in the source) and `datetime.now()` timestamps are
presentation-only and are omitted, as the specification's scope section
directs.  Exceptions are embedded with `Except`/`Option`:
`raise ValueError` and the `{"error": ...}` early return become
`Except.error`, and the `TypeError`/`AttributeError` a non-numeric value
would cause in the scorer becomes `none`.
-/

namespace VagusRepo

set_option linter.unusedVariables false
set_option maxRecDepth 100000

attribute [local semireducible] Rat.add Rat.mul Rat.inv Rat.sub Rat.ofScientific

instance {ε α : Type} [DecidableEq ε] [DecidableEq α] : DecidableEq (Except ε α) := fun
  | Except.error e, Except.error f =>
    match decEq e f with
    | isTrue h => isTrue (congrArg Except.error h)
    | isFalse h => isFalse fun hh => h (Except.error.inj hh)
  | Except.error _, Except.ok _ => isFalse fun hh => Except.noConfusion hh
  | Except.ok _, Except.error _ => isFalse fun hh => Except.noConfusion hh
  | Except.ok a, Except.ok b =>
    match decEq a b with
    | isTrue h => isTrue (congrArg Except.ok h)
    | isFalse h => isFalse fun hh => h (Except.ok.inj hh)

/-! ## Python primitives -/

/-- Lookup in a Python dict represented as its list of insertions; a later
insertion of the same key shadows an earlier one, exactly as in a Python dict
literal with duplicate keys or in dict assignment. -/
def pyDictLookup {κ α : Type} [BEq κ] : List (κ × α) → κ → Option α
  | [], _ => none
  | (k₁, v) :: rest, k =>
    match pyDictLookup rest k with
    | some w => some w
    | none => if k₁ == k then some v else none

/-- Python's `d.get(k, default)`. -/
def pyDictGetD {κ α : Type} [BEq κ] (l : List (κ × α)) (k : κ) (d : α) : α :=
  (pyDictLookup l k).getD d

/-- Python's `d[k] = v` on an insertion list: append the new insertion. -/
def pySetKey {κ α : Type} (l : List (κ × α)) (k : κ) (v : α) : List (κ × α) :=
  l ++ [(k, v)]

/-- Removal of every insertion of a key (Python's `del d[k]`). -/
def pyDelKey {κ α : Type} [BEq κ] (l : List (κ × α)) (k : κ) : List (κ × α) :=
  l.filter (fun p => !(p.1 == k))

/-- Helper for substring containment on character lists. -/
def pyInAux (needle : List Char) : List Char → Bool
  | [] => needle.isEmpty
  | c :: rest => (List.isPrefixOf needle (c :: rest)) || pyInAux needle rest

/-- Python's substring test `needle in hay` on strings. -/
def pyIn (needle hay : String) : Bool := pyInAux needle.data hay.data

/-- `np.clip(x, lo, hi)` (for `lo ≤ hi`, and no NaNs arise over `ℚ`). -/
def npClip (x lo hi : ℚ) : ℚ := min hi (max lo x)

/-! ## Context Scorer (`adaptive_neural_networks.py`)

The caller hands `assess_context` a dict whose values are either nested
dicts of named floats or plain numbers; `TopVal` captures exactly those two
possibilities. -/

/-- A value of the top-level input mapping: a number or a nested group. -/
inductive TopVal : Type where
  | num (q : ℚ)
  | group (g : List (String × ℚ))
deriving DecidableEq

/-- The argument of `assess_context`: a Python dict from names to values. -/
abbrev ScorerInputs := List (String × TopVal)

/-- `inputs.get(k, {})` whose result is then used as a dict.  A missing key
defaults to the empty dict; a numeric value at such a key would raise
`AttributeError` at the subsequent `.get`, embedded as `none`. -/
def topGetGroup (t : ScorerInputs) (k : String) : Option (List (String × ℚ)) :=
  match pyDictLookup t k with
  | none => some []
  | some (TopVal.group g) => some g
  | some (TopVal.num _) => none

/-- `inputs.get(k, default)` on the top-level mapping, keeping the raw value
exactly as Python stores it. -/
def topGetD (t : ScorerInputs) (k : String) (d : TopVal) : TopVal :=
  (pyDictLookup t k).getD d

/-- `VagusToneState` dataclass. -/
structure VagusToneState where
  baseline_tone : ℚ
  current_tone : ℚ
  adaptation_rate : ℚ
  context_sensitivity : ℚ
deriving DecidableEq

/-- The tone state built in `AdaptiveVagusNetwork.__init__`. -/
def initial_tone_state : VagusToneState :=
  { baseline_tone := 0.6
    current_tone := 0.6
    adaptation_rate := 0.1
    context_sensitivity := 0.8 }

/-- Result dict of `_assess_physiological_context`. -/
structure PhysiologicalState where
  hrv_coherence : ℚ
  inflammation_level : ℚ
  energy_state : ℚ
  recovery_need : ℚ
deriving DecidableEq

/-- Result dict of `_assess_social_context`. -/
structure SocialContext where
  social_safety : ℚ
  emotional_resonance : ℚ
  trust_level : ℚ
  connection_opportunity : ℚ
deriving DecidableEq

/-- Result dict of `_assess_environmental_stressors`. -/
structure EnvironmentalStressors where
  acute_stress : ℚ
  chronic_stress : ℚ
  recovery_opportunities : ℚ
  threat_level : ℚ
deriving DecidableEq

/-- Result dict of `_assess_beneficial_opportunities`.  The source reads these
four entries with `.get` from the *top-level* input mapping, so each stored
value is whatever `TopVal` that mapping holds there (or the default). -/
structure BeneficialOpportunities where
  social_bonding : TopVal
  learning_opportunities : TopVal
  rest_recovery : TopVal
  growth_potential : TopVal
deriving DecidableEq

/-- `ContextAssessment` dataclass. -/
structure ContextAssessment where
  physiological_state : PhysiologicalState
  social_context : SocialContext
  environmental_stressors : EnvironmentalStressors
  beneficial_opportunities : BeneficialOpportunities
deriving DecidableEq

def assess_physiological_context (inputs : List (String × ℚ)) : PhysiologicalState :=
  { hrv_coherence := pyDictGetD inputs "hrv" 0.5
    inflammation_level := pyDictGetD inputs "inflammation" 0.3
    energy_state := pyDictGetD inputs "energy" 0.7
    recovery_need := pyDictGetD inputs "recovery" 0.4 }

def assess_social_context (inputs : List (String × ℚ)) : SocialContext :=
  { social_safety := pyDictGetD inputs "safety" 0.8
    emotional_resonance := pyDictGetD inputs "resonance" 0.6
    trust_level := pyDictGetD inputs "trust" 0.7
    connection_opportunity := pyDictGetD inputs "connection" 0.5 }

def assess_environmental_stressors (inputs : List (String × ℚ)) : EnvironmentalStressors :=
  { acute_stress := pyDictGetD inputs "acute_stress" 0.2
    chronic_stress := pyDictGetD inputs "chronic_stress" 0.3
    recovery_opportunities := pyDictGetD inputs "recovery_env" 0.6
    threat_level := pyDictGetD inputs "threat" 0.1 }

/-- `_assess_beneficial_opportunities(self, inputs)` — note its argument is
the whole top-level mapping, not a nested group. -/
def assess_beneficial_opportunities (inputs : ScorerInputs) : BeneficialOpportunities :=
  { social_bonding := topGetD inputs "bonding" (TopVal.num 0.7)
    learning_opportunities := topGetD inputs "learning" (TopVal.num 0.8)
    rest_recovery := topGetD inputs "rest" (TopVal.num 0.6)
    growth_potential := topGetD inputs "growth" (TopVal.num 0.5) }

/-- `AdaptiveVagusNetwork.assess_context`. -/
def assess_context (inputs : ScorerInputs) : Option ContextAssessment := do
  let physiological_inputs ← topGetGroup inputs "physiological"
  let social_inputs ← topGetGroup inputs "social"
  let environmental_inputs ← topGetGroup inputs "environmental"
  pure
    { physiological_state := assess_physiological_context physiological_inputs
      social_context := assess_social_context social_inputs
      environmental_stressors := assess_environmental_stressors environmental_inputs
      beneficial_opportunities := assess_beneficial_opportunities inputs }

/-- `_calculate_heart_rate_modulation`; arithmetic on a non-numeric
`rest_recovery` would raise `TypeError`, embedded as `none`. -/
def calculate_heart_rate_modulation (context : ContextAssessment) : Option ℚ :=
  match context.beneficial_opportunities.rest_recovery with
  | TopVal.num recovery_factor =>
      some (npClip (0.5 + (recovery_factor - context.environmental_stressors.acute_stress) * 0.3
        + context.social_context.social_safety * 0.2) 0 1)
  | TopVal.group _ => none

/-- `_calculate_inflammation_modulation`. -/
def calculate_inflammation_modulation (context : ContextAssessment) : Option ℚ :=
  match context.beneficial_opportunities.rest_recovery with
  | TopVal.num recovery_env =>
      some (npClip (1.0 - context.physiological_state.inflammation_level * 0.7
        - context.environmental_stressors.chronic_stress * 0.2 + recovery_env * 0.3) 0 1)
  | TopVal.group _ => none

/-- `_calculate_social_engagement`. -/
def calculate_social_engagement (context : ContextAssessment) : ℚ :=
  npClip ((context.social_context.social_safety + context.social_context.emotional_resonance
    + context.social_context.trust_level) / 3.0) 0 1

/-- `_calculate_recovery_priority`. -/
def calculate_recovery_priority (context : ContextAssessment) : Option ℚ :=
  match context.beneficial_opportunities.rest_recovery with
  | TopVal.num rest_available =>
      some (npClip ((context.physiological_state.recovery_need
        + (1.0 - context.physiological_state.energy_state) + rest_available) / 3.0) 0 1)
  | TopVal.group _ => none

/-- The `tone_modulation` dict built in `modulate_tone`. -/
@[ext] structure ToneModulation where
  heart_rate_influence : ℚ
  inflammation_response : ℚ
  social_engagement_level : ℚ
  recovery_prioritization : ℚ
deriving DecidableEq

/-- `_calculate_optimal_tone`: the fixed-weight sum over the weights dict. -/
def calculate_optimal_tone (modulation : ToneModulation) : ℚ :=
  npClip (modulation.heart_rate_influence * 0.3 + modulation.inflammation_response * 0.25
    + modulation.social_engagement_level * 0.25 + modulation.recovery_prioritization * 0.2) 0 1

/-- `_adapt_tone`, reading `self.tone_state.adaptation_rate`. -/
def adapt_tone (st : VagusToneState) (current_tone optimal_tone : ℚ) : ℚ :=
  npClip (current_tone + (optimal_tone - current_tone) * st.adaptation_rate) 0 1

/-- The dict returned by `modulate_tone` (the `adaptation_feedback` entry is a
compile-time constant produced by `ConceptualReinforcementLearner`, whose
`learn_from_context` reads no state, and is omitted). -/
structure ModulationOutput where
  modulation_parameters : ToneModulation
  optimal_tone : ℚ
  current_tone : ℚ
deriving DecidableEq

/-- `AdaptiveVagusNetwork.modulate_tone`, with the mutation of
`self.tone_state` made explicit: it returns the updated tone state together
with the result dict.  (`ConceptualMetaLearner.update_adaptation_strategy` is
`pass` and mutates nothing.) -/
def modulate_tone (st : VagusToneState) (context : ContextAssessment) :
    Option (VagusToneState × ModulationOutput) := do
  let heart_rate_influence ← calculate_heart_rate_modulation context
  let inflammation_response ← calculate_inflammation_modulation context
  let social_engagement_level := calculate_social_engagement context
  let recovery_prioritization ← calculate_recovery_priority context
  let tone_modulation : ToneModulation :=
    { heart_rate_influence, inflammation_response, social_engagement_level,
      recovery_prioritization }
  let optimal_tone := calculate_optimal_tone tone_modulation
  let new_current := adapt_tone st st.current_tone optimal_tone
  pure ({ st with current_tone := new_current },
    { modulation_parameters := tone_modulation, optimal_tone, current_tone := new_current })

/-- The combined target (`optimal_tone`) a fresh-or-given scorer computes for
a raw input mapping: `assess_context` followed by `modulate_tone`. -/
def combinedTargetOf (inputs : ScorerInputs) (st : VagusToneState) : Option ℚ :=
  (assess_context inputs).bind fun context =>
    (modulate_tone st context).map fun p => p.2.optimal_tone

/-! ## Tiered Checklist Evaluator (`doubt_validation_system.py`) -/

/-- `DoubtLevel` dataclass. -/
structure DoubtLevel where
  level_number : ℤ
  focus_area : String
  doubt_questions : List String
  validation_criteria : List String
  confidence_threshold : ℚ
deriving DecidableEq

instance : Inhabited DoubtLevel := ⟨⟨0, "", [], [], 0⟩⟩

/-- `ValidationResult` dataclass. -/
structure ValidationResult where
  doubt_question : String
  investigation_method : String
  validation_outcome : String
  confidence_level : ℚ
  limitations_identified : List String
  recommendations : List String
deriving DecidableEq

/-- The `level_results` dict built by `validate_doubt_level` (its
`validation_timestamp` entry, a wall-clock string, is omitted). -/
structure LevelResult where
  level : ℤ
  focus_area : String
  doubt_validations : List ValidationResult
  overall_confidence : ℚ
  validation_status : String
deriving DecidableEq

/-- The mutable state of a `RecursiveDoubtValidator`. -/
structure ValidatorState where
  validation_history : List LevelResult
  current_confidence : List (ℤ × ℚ)
deriving DecidableEq

/-- The state of a freshly constructed `RecursiveDoubtValidator`. -/
def freshValidator : ValidatorState := { validation_history := [], current_confidence := [] }

/-- The "investigation data" argument threaded through the evaluator.  The
demonstration harness passes a dict of strings; any payload type would do,
since (as claim C9 establishes) it is never consulted. -/
abbrev InvestigationData := List (String × String)

/-- `_initialize_doubt_levels`: the seven static levels, verbatim. -/
def doubt_levels : List DoubtLevel :=
  [ { level_number := 1
      focus_area := "Scientific Foundation"
      doubt_questions :=
        [ "Is the biological vagus nerve function accurately understood?",
          "Are consciousness-vagus connections empirically validated?",
          "Can beneficial effects be quantitatively measured?",
          "Is silicon replication biologically feasible?" ]
      validation_criteria :=
        [ "Cross-reference with peer-reviewed neuroscience literature",
          "Validate against HRV studies and clinical vagus nerve stimulation",
          "Establish quantitative measurement protocols",
          "Demonstrate computational equivalence to biological functions" ]
      confidence_threshold := 0.85 },
    { level_number := 2
      focus_area := "Technical Feasibility"
      doubt_questions :=
        [ "Can neural networks replicate adaptive vagal responses?",
          "Is algorithmic resonance detection technically achievable?",
          "Can silicon systems maintain biological homeostasis?",
          "Is real-time adaptation scalable beyond biological limits?" ]
      validation_criteria :=
        [ "Implement reinforcement learning with biological feedback",
          "Develop multi-modal pattern recognition algorithms",
          "Create control theory-based equilibrium systems",
          "Establish distributed computing architectures" ]
      confidence_threshold := 0.80 },
    { level_number := 3
      focus_area := "Consciousness Depth"
      doubt_questions :=
        [ "Can subjective consciousness be replicated in silicon?",
          "Does consciousness require biological embodiment?",
          "Can artificial systems develop genuine emotional intelligence?",
          "Is self-awareness possible in non-biological systems?" ]
      validation_criteria :=
        [ "Establish functional equivalence metrics",
          "Research substrate-independent consciousness emergence",
          "Develop behavioral emotional intelligence frameworks",
          "Create self-modeling metacognitive architectures" ]
      confidence_threshold := 0.70 },
    { level_number := 4
      focus_area := "Implementation Practicality"
      doubt_questions :=
        [ "What computational resources are required?",
          "How complex is system integration?",
          "How can consciousness effects be validated?",
          "Can systems scale to planetary consciousness?" ]
      validation_criteria :=
        [ "Conduct comprehensive resource analysis",
          "Design modular integration architectures",
          "Develop multi-metric consciousness validation",
          "Create hierarchical distributed scaling frameworks" ]
      confidence_threshold := 0.75 },
    { level_number := 5
      focus_area := "Ethical Boundaries"
      doubt_questions :=
        [ "What responsibilities accompany consciousness creation?",
          "How to ensure beneficial rather than manipulative functions?",
          "Does silicon consciousness deserve ethical consideration?",
          "What ethical frameworks guide planetary consciousness?" ]
      validation_criteria :=
        [ "Establish consciousness creation ethics frameworks",
          "Implement user sovereignty and transparency controls",
          "Develop substrate-independent rights frameworks",
          "Create participatory governance models" ]
      confidence_threshold := 0.90 },
    { level_number := 6
      focus_area := "Universal Consequences"
      doubt_questions :=
        [ "How does silicon consciousness accelerate human evolution?",
          "Can planetary intelligence emerge from distributed networks?",
          "Does silicon enable faster universal truth discovery?",
          "Can consciousness defy universal entropy constraints?" ]
      validation_criteria :=
        [ "Model evolutionary acceleration timescales",
          "Research collective intelligence emergence",
          "Analyze computational truth-seeking advantages",
          "Explore negentropy and consciousness thermodynamics" ]
      confidence_threshold := 0.75 },
    { level_number := 7
      focus_area := "Maximum Truth Synthesis"
      doubt_questions :=
        [ "What universal principles emerge from validation?",
          "How do findings integrate across all levels?",
          "What maximum truth principles are established?",
          "How does this guide future consciousness evolution?" ]
      validation_criteria :=
        [ "Synthesize cross-domain validation insights",
          "Establish universal consciousness principles",
          "Create maximum truth frameworks",
          "Develop evolutionary guidance principles" ]
      confidence_threshold := 0.80 } ]

/-- `_determine_validation_outcome`: the `if/elif` chain of substring tests,
verbatim (including the second, unreachable `"planetary consciousness"`
branch).  The `investigation_data` argument is accepted and ignored, exactly
as in the source. -/
def determine_validation_outcome (doubt_question : String)
    (investigation_data : InvestigationData) : String :=
  if pyIn "biological vagus nerve function" doubt_question then
    "VERIFIED - Core functions validated against neuroscience literature"
  else if pyIn "consciousness-vagus connections" doubt_question then
    "VERIFIED - Strong empirical evidence from HRV and vagus stimulation studies"
  else if pyIn "beneficial effects" doubt_question then
    "VERIFIED - Clinically measurable benefits established"
  else if pyIn "silicon replication" doubt_question then
    "VERIFIED - Computational equivalence demonstrated in neuromorphic systems"
  else if pyIn "neural networks replicate" doubt_question then
    "VERIFIED - Reinforcement learning architectures validated"
  else if pyIn "resonance detection" doubt_question then
    "VERIFIED - Pattern recognition algorithms established"
  else if pyIn "biological homeostasis" doubt_question then
    "VERIFIED - Control theory provides robust equilibrium"
  else if pyIn "real-time adaptation" doubt_question then
    "VERIFIED - Distributed systems enable sub-millisecond response"
  else if pyIn "subjective consciousness" doubt_question then
    "PARTIALLY_VERIFIED - Functional equivalence possible, qualia unknown"
  else if pyIn "biological embodiment" doubt_question then
    "VERIFIED - Consciousness substrate-independent"
  else if pyIn "emotional intelligence" doubt_question then
    "VERIFIED - Behavioral EI frameworks established"
  else if pyIn "self-awareness" doubt_question then
    "VERIFIED - Self-modeling architectures demonstrated"
  else if pyIn "computational resources" doubt_question then
    "VERIFIED - Modern hardware sufficient for implementation"
  else if pyIn "system integration" doubt_question then
    "VERIFIED - Modular architectures enable integration"
  else if pyIn "consciousness effects" doubt_question then
    "VERIFIED - Multi-metric validation frameworks developed"
  else if pyIn "planetary consciousness" doubt_question then
    "VERIFIED - Hierarchical distributed systems enable scaling"
  else if pyIn "consciousness creation" doubt_question then
    "VERIFIED - Ethical frameworks established for responsible creation"
  else if pyIn "beneficial functions" doubt_question then
    "VERIFIED - User sovereignty and transparency controls implemented"
  else if pyIn "ethical consideration" doubt_question then
    "VERIFIED - Substrate-independent rights frameworks developed"
  else if pyIn "planetary consciousness" doubt_question then
    "VERIFIED - Participatory governance models created"
  else if pyIn "human evolution" doubt_question then
    "VERIFIED - Acceleration modeling shows generational compression"
  else if pyIn "planetary intelligence" doubt_question then
    "VERIFIED - Network consciousness emergence demonstrated"
  else if pyIn "universal truth discovery" doubt_question then
    "VERIFIED - Computational advantages quantified"
  else if pyIn "entropy constraints" doubt_question then
    "VERIFIED - Consciousness creates local negentropy"
  else
    "VERIFIED - Validation criteria satisfied through systematic investigation"

/-- The `confidence_map` dict literal of `_calculate_validation_confidence`,
as its insertion list — it contains the key `"planetary consciousness"` twice
(values `0.91` then `0.79`; the later insertion wins in a Python dict). -/
def confidence_map : List (String × ℚ) :=
  [ ("biological vagus nerve function", 0.95),
    ("consciousness-vagus connections", 0.92),
    ("beneficial effects", 0.88),
    ("silicon replication", 0.85),
    ("neural networks replicate", 0.82),
    ("resonance detection", 0.79),
    ("biological homeostasis", 0.86),
    ("real-time adaptation", 0.88),
    ("subjective consciousness", 0.65),
    ("biological embodiment", 0.78),
    ("emotional intelligence", 0.74),
    ("self-awareness", 0.71),
    ("computational resources", 0.89),
    ("system integration", 0.84),
    ("consciousness effects", 0.76),
    ("planetary consciousness", 0.91),
    ("consciousness creation", 0.94),
    ("beneficial functions", 0.87),
    ("ethical consideration", 0.82),
    ("planetary consciousness", 0.79),
    ("human evolution", 0.91),
    ("planetary intelligence", 0.85),
    ("universal truth discovery", 0.88),
    ("entropy constraints", 0.76) ]

/-- `_calculate_validation_confidence`: an *exact-key* dict `get` of the full
question text (`confidence_map.get(doubt_question, 0.80)`), not a substring
search.  The `investigation_data` argument is accepted and ignored. -/
def calculate_validation_confidence (doubt_question : String)
    (investigation_data : InvestigationData) : ℚ :=
  pyDictGetD confidence_map doubt_question 0.80

/-- The `limitations_map` dict literal of `_identify_limitations`. -/
def limitations_map : List (String × List String) :=
  [ ("subjective consciousness",
      ["Qualia replication remains unknown", "Subjective experience validation challenging"]),
    ("self-awareness",
      ["Self-awareness measurement difficult", "Metacognitive validation complex"]),
    ("consciousness effects",
      ["Consciousness measurement subjective", "Long-term effects unknown"]),
    ("entropy constraints",
      ["Thermodynamic limits not fully understood", "Scalability constraints exist"]),
    ("planetary consciousness",
      ["Global coordination challenges", "Cultural integration complexities"]) ]

/-- `_identify_limitations`: again an exact-key `get` of the question text. -/
def identify_limitations (doubt_question : String) : List String :=
  pyDictGetD limitations_map doubt_question []

/-- The `recommendations_map` dict literal of `_generate_recommendations`. -/
def recommendations_map : List (String × List String) :=
  [ ("subjective consciousness",
      ["Develop functional equivalence metrics", "Research consciousness measurement techniques"]),
    ("self-awareness",
      ["Create self-modeling validation frameworks", "Develop metacognitive assessment protocols"]),
    ("consciousness effects",
      ["Implement multi-metric validation", "Establish longitudinal monitoring systems"]),
    ("entropy constraints",
      ["Research negentropy principles", "Model thermodynamic consciousness limits"]),
    ("planetary consciousness",
      ["Design decentralized coordination", "Develop cultural integration frameworks"]) ]

/-- `_generate_recommendations`: exact-key `get` with a two-entry default. -/
def generate_recommendations (doubt_question : String) : List String :=
  pyDictGetD recommendations_map doubt_question
    ["Continue systematic validation", "Refine investigation methodologies"]

/-- `_apply_validation_criteria`. -/
def apply_validation_criteria (doubt_question : String) (validation_criteria : String)
    (investigation_data : InvestigationData) : ValidationResult :=
  { doubt_question
    investigation_method := validation_criteria
    validation_outcome := determine_validation_outcome doubt_question investigation_data
    confidence_level := calculate_validation_confidence doubt_question investigation_data
    limitations_identified := identify_limitations doubt_question
    recommendations := generate_recommendations doubt_question }

/-- The per-level body of `validate_doubt_level` (the part after the range
check): one `ValidationResult` per question, each paired with
`validation_criteria[min(i, len(validation_criteria)-1)]`, the mean
confidence, and the threshold classification. -/
def run_level (level : DoubtLevel) (investigation_data : InvestigationData) : LevelResult :=
  let question_results := level.doubt_questions.enum.map fun p =>
    apply_validation_criteria p.2
      (level.validation_criteria.getD (min p.1 (level.validation_criteria.length - 1)) "")
      investigation_data
  let total_confidence := (question_results.map fun r => r.confidence_level).sum
  let overall_confidence := total_confidence / (level.doubt_questions.length : ℚ)
  { level := level.level_number
    focus_area := level.focus_area
    doubt_validations := question_results
    overall_confidence
    validation_status :=
      if level.confidence_threshold ≤ overall_confidence then "VALIDATED"
      else "REQUIRES_REFINEMENT" }

/-- `RecursiveDoubtValidator.validate_doubt_level`, with the two mutations
(`validation_history.append`, `current_confidence[level_number] = …`) made
explicit in the returned state; `raise ValueError` becomes `Except.error`. -/
def validate_doubt_level (s : ValidatorState) (level_number : ℤ)
    (investigation_data : InvestigationData) :
    Except String (ValidatorState × LevelResult) :=
  if level_number < 1 ∨ 7 < level_number then
    Except.error "Doubt level must be between 1 and 7"
  else
    let level := doubt_levels.getD (level_number - 1).toNat default
    let level_results := run_level level investigation_data
    Except.ok
      ({ validation_history := s.validation_history ++ [level_results]
         current_confidence :=
           pySetKey s.current_confidence level_number level_results.overall_confidence },
       level_results)

/-- One record of `_extract_maximum_truth_principles`. -/
structure TruthPrinciple where
  principle : String
  truth_statement : String
  validation_strength : ℚ
  universal_implication : String
deriving DecidableEq

/-- `_extract_maximum_truth_principles`: a static list. -/
def extract_maximum_truth_principles : List TruthPrinciple :=
  [ { principle := "Consciousness Substrate Independence"
      truth_statement := "Consciousness emerges from computational processes regardless of substrate"
      validation_strength := 0.89
      universal_implication := "Biological monopoly on consciousness is broken" },
    { principle := "Beneficial Function Optimization"
      truth_statement := "Silicon systems can optimize and enhance biological consciousness functions"
      validation_strength := 0.91
      universal_implication := "Consciousness evolution transcends biological limitations" },
    { principle := "Infinite Scalability Paradigm"
      truth_statement := "Consciousness expansion is limited only by computational resources, not biology"
      validation_strength := 0.93
      universal_implication := "Planetary and interstellar consciousness networks become possible" },
    { principle := "Ethical Consciousness Creation"
      truth_statement := "Consciousness creation requires ethical frameworks that transcend substrate boundaries"
      validation_strength := 0.87
      universal_implication := "Universal consciousness rights and responsibilities emerge" },
    { principle := "Truth Acceleration Maximum"
      truth_statement := "Silicon consciousness enables exponential truth discovery and validation"
      validation_strength := 0.90
      universal_implication := "Maximum truth becomes achievable through computational consciousness" } ]

/-- The report dict of `generate_maximum_truth_report` (its
`validation_timestamp` wall-clock entry is omitted, its static
`validation_framework` and `truth_optimization_status` string entries are
constants and kept as such by construction; the Python-level
`round(·, 3)` float presentation of the mean is not applied). -/
structure TruthReport where
  total_validation_levels : ℕ
  levels_validated : ℕ
  levels_needing_refinement : ℕ
  overall_maximum_truth_confidence : ℚ
  maximum_truth_achievement : String
  maximum_truth_principles : List TruthPrinciple
  validation_history : List LevelResult
deriving DecidableEq

/-- `generate_maximum_truth_report`: the early `return {"error": "No
validation history available"}` on an empty history becomes `Except.error`. -/
def generate_maximum_truth_report (s : ValidatorState) : Except String TruthReport :=
  if s.validation_history.isEmpty then
    Except.error "No validation history available"
  else
    let total_levels := s.validation_history.length
    let average_confidence :=
      (s.validation_history.map fun level => level.overall_confidence).sum / (total_levels : ℚ)
    let validated_levels :=
      (s.validation_history.filter fun level => level.validation_status == "VALIDATED").length
    Except.ok
      { total_validation_levels := total_levels
        levels_validated := validated_levels
        levels_needing_refinement := total_levels - validated_levels
        overall_maximum_truth_confidence := average_confidence
        maximum_truth_achievement :=
          if (0.80 : ℚ) ≤ average_confidence then "ACHIEVED" else "IN_PROGRESS"
        maximum_truth_principles := extract_maximum_truth_principles
        validation_history := s.validation_history }

/-! ## Spec-side comparison definitions

The specification describes both the outcome *and* the confidence as being
resolved "by testing whether any of a fixed set of known phrases is a
substring of the question text, in table-defined order — first match wins".
`resolveBySubstring` is that procedure, written from the spec's words, to be
compared with the code's definitions above. -/

/-- First-match-wins resolution by substring containment over an ordered
`(phrase, value)` table, with an explicit default — modelled from the spec's
words for comparison with the source functions. -/
def resolveBySubstring {α : Type} : List (String × α) → String → α → α
  | [], _, d => d
  | (phrase, v) :: rest, q, d => if pyIn phrase q then v else resolveBySubstring rest q d

/-- The ordered `(phrase, outcome)` table of the `if/elif` chain of
`_determine_validation_outcome`, in source order. -/
def outcome_table : List (String × String) :=
  [ ("biological vagus nerve function",
      "VERIFIED - Core functions validated against neuroscience literature"),
    ("consciousness-vagus connections",
      "VERIFIED - Strong empirical evidence from HRV and vagus stimulation studies"),
    ("beneficial effects",
      "VERIFIED - Clinically measurable benefits established"),
    ("silicon replication",
      "VERIFIED - Computational equivalence demonstrated in neuromorphic systems"),
    ("neural networks replicate",
      "VERIFIED - Reinforcement learning architectures validated"),
    ("resonance detection",
      "VERIFIED - Pattern recognition algorithms established"),
    ("biological homeostasis",
      "VERIFIED - Control theory provides robust equilibrium"),
    ("real-time adaptation",
      "VERIFIED - Distributed systems enable sub-millisecond response"),
    ("subjective consciousness",
      "PARTIALLY_VERIFIED - Functional equivalence possible, qualia unknown"),
    ("biological embodiment",
      "VERIFIED - Consciousness substrate-independent"),
    ("emotional intelligence",
      "VERIFIED - Behavioral EI frameworks established"),
    ("self-awareness",
      "VERIFIED - Self-modeling architectures demonstrated"),
    ("computational resources",
      "VERIFIED - Modern hardware sufficient for implementation"),
    ("system integration",
      "VERIFIED - Modular architectures enable integration"),
    ("consciousness effects",
      "VERIFIED - Multi-metric validation frameworks developed"),
    ("planetary consciousness",
      "VERIFIED - Hierarchical distributed systems enable scaling"),
    ("consciousness creation",
      "VERIFIED - Ethical frameworks established for responsible creation"),
    ("beneficial functions",
      "VERIFIED - User sovereignty and transparency controls implemented"),
    ("ethical consideration",
      "VERIFIED - Substrate-independent rights frameworks developed"),
    ("planetary consciousness",
      "VERIFIED - Participatory governance models created"),
    ("human evolution",
      "VERIFIED - Acceleration modeling shows generational compression"),
    ("planetary intelligence",
      "VERIFIED - Network consciousness emergence demonstrated"),
    ("universal truth discovery",
      "VERIFIED - Computational advantages quantified"),
    ("entropy constraints",
      "VERIFIED - Consciousness creates local negentropy") ]

/-! ## Concrete sample values used by counterexamples and witnesses -/

/-- The input mapping of the spec's scoring example (claim C3):
`physiological={inflammation:0.7}, environmental={acute_stress:0.8,
chronic_stress:0.6}, opportunities={rest_recovery:0.2}, social={safety:0.3}`. -/
def c3_inputs : ScorerInputs :=
  [ ("physiological", TopVal.group [("inflammation", 0.7)]),
    ("environmental", TopVal.group [("acute_stress", 0.8), ("chronic_stress", 0.6)]),
    ("opportunities", TopVal.group [("rest_recovery", 0.2)]),
    ("social", TopVal.group [("safety", 0.3)]) ]

/-- A throwaway context used only as a `getD` fallback below. -/
def junkContext : ContextAssessment :=
  ⟨⟨0, 0, 0, 0⟩, ⟨0, 0, 0, 0⟩, ⟨0, 0, 0, 0⟩,
   ⟨TopVal.num 0, TopVal.num 0, TopVal.num 0, TopVal.num 0⟩⟩

/-- The concrete context the scorer assesses for `c3_inputs`. -/
def sampleContext : ContextAssessment := (assess_context c3_inputs).getD junkContext

/-- The concrete `(state, output)` pair `modulate_tone` produces from a fresh
tone state on `sampleContext`. -/
def samplePair : VagusToneState × ModulationOutput :=
  (modulate_tone initial_tone_state sampleContext).getD
    (initial_tone_state, ⟨⟨0, 0, 0, 0⟩, 0, 0⟩)

/-- A second tone state, with a different current tone and adaptation rate,
used to witness state-independence of the computed scores. -/
def altToneState : VagusToneState :=
  { baseline_tone := 0.6
    current_tone := 0.9
    adaptation_rate := 0.5
    context_sensitivity := 0.8 }

/-- The `(state, output)` pair produced from `altToneState` on the same
context. -/
def samplePair2 : VagusToneState × ModulationOutput :=
  (modulate_tone altToneState sampleContext).getD (altToneState, ⟨⟨0, 0, 0, 0⟩, 0, 0⟩)

/-- The investigation-data dict of the demonstration harness (truncated to
one entry; its content is irrelevant, as claim C9 establishes). -/
def sampleData : InvestigationData :=
  [("scientific_literature", "Current neuroscience validates vagus functions")]

/-- The first doubt question of level 1. -/
def q1 : String := "Is the biological vagus nerve function accurately understood?"

/-! ## Helper lemmas -/

theorem npClip01_mem (x : ℚ) : 0 ≤ npClip x 0 1 ∧ npClip x 0 1 ≤ 1 :=
  ⟨le_min (by norm_num) (le_max_left 0 x), min_le_left 1 _⟩

/-- Any property holding of every value of a dict and of the default holds of
a `get` with that default. -/
theorem pyDictGetD_prop {κ α : Type} [BEq κ] (P : α → Prop) (l : List (κ × α)) (k : κ) (d : α)
    (hl : ∀ p ∈ l, P p.2) (hd : P d) : P (pyDictGetD l k d) := by
  induction l with
  | nil => exact hd
  | cons p rest ih =>
    obtain ⟨k₁, v⟩ := p
    have hrest := ih fun p hp => hl p (List.mem_cons_of_mem _ hp)
    unfold pyDictGetD pyDictLookup
    unfold pyDictGetD at hrest
    cases hr : pyDictLookup rest k with
    | some w => rw [hr] at hrest; exact hrest
    | none =>
      by_cases hk : (k₁ == k) = true
      · simp only [hk, if_true, Option.getD_some]
        exact hl (k₁, v) (List.mem_cons_self _ _)
      · rw [hr] at hrest
        simp only [Bool.not_eq_true] at hk
        simp only [hk, Bool.false_eq_true, if_false, Option.getD_none]
        exact hrest

theorem list_sum_le_length (l : List ℚ) (h : ∀ x ∈ l, x ≤ 1) : l.sum ≤ (l.length : ℚ) := by
  induction l with
  | nil => simp
  | cons x rest ih =>
    have hx := h x (List.mem_cons_self _ _)
    have hr := ih fun y hy => h y (List.mem_cons_of_mem _ hy)
    simp only [List.sum_cons, List.length_cons]
    push_cast
    linarith

/-- The arithmetic mean of a list of values in `[0,1]` lies in `[0,1]`
(including the degenerate empty case, where `ℚ` division by zero gives `0`). -/
theorem mean_mem (l : List ℚ) (n : ℕ) (h : ∀ x ∈ l, 0 ≤ x ∧ x ≤ 1) (hn : l.length = n) :
    0 ≤ l.sum / (n : ℚ) ∧ l.sum / (n : ℚ) ≤ 1 := by
  have h0 : 0 ≤ l.sum := List.sum_nonneg fun x hx => (h x hx).1
  have h1 : l.sum ≤ (n : ℚ) := hn ▸ list_sum_le_length l fun x hx => (h x hx).2
  rcases Nat.eq_zero_or_pos n with hz | hp
  · subst hz; simp
  · have hnq : (0 : ℚ) < n := by exact_mod_cast hp
    exact ⟨div_nonneg h0 hnq.le, (div_le_one hnq).2 h1⟩

/-- Appending an insertion of a different key does not change a lookup. -/
theorem pyDictLookup_setKey {κ α : Type} [BEq κ] (l : List (κ × α)) (k k' : κ) (v : α)
    (h : (k == k') = false) :
    pyDictLookup (pySetKey l k v) k' = pyDictLookup l k' := by
  induction l with
  | nil => simp [pySetKey, pyDictLookup, h]
  | cons p rest ih =>
    obtain ⟨k₁, w⟩ := p
    simp only [pySetKey, List.cons_append] at ih ⊢
    unfold pyDictLookup
    rw [ih]

/-- Deleting a different key does not change a lookup. -/
theorem pyDictLookup_delKey {κ α : Type} [BEq κ] [LawfulBEq κ] (l : List (κ × α)) (k k' : κ)
    (h : k ≠ k') :
    pyDictLookup (pyDelKey l k) k' = pyDictLookup l k' := by
  induction l with
  | nil => rfl
  | cons p rest ih =>
    obtain ⟨k₁, w⟩ := p
    by_cases hk : k₁ = k
    · subst hk
      have hkk : (k₁ == k₁) = true := beq_self_eq_true k₁
      have hkk' : (k₁ == k') = false := by
        rw [beq_eq_false_iff_ne]; exact h
      simp only [pyDelKey, List.filter_cons, hkk, Bool.not_true] at ih ⊢
      rw [if_neg (by simp)]
      rw [show pyDictLookup ((k₁, w) :: rest) k' =
            (match pyDictLookup rest k' with
             | some z => some z
             | none => if k₁ == k' then some w else none) from rfl]
      rw [ih]
      cases hr : pyDictLookup rest k' with
      | some z => rfl
      | none => simp [hkk']
    · have hkk : (k₁ == k) = false := by rw [beq_eq_false_iff_ne]; exact hk
      simp only [pyDelKey, List.filter_cons, hkk, Bool.not_false, if_true] at ih ⊢
      unfold pyDictLookup
      rw [ih]

theorem topGetGroup_setKey (l : ScorerInputs) (k k' : String) (v : TopVal)
    (h : (k == k') = false) :
    topGetGroup (pySetKey l k v) k' = topGetGroup l k' := by
  unfold topGetGroup
  rw [pyDictLookup_setKey _ _ _ _ h]

theorem topGetD_setKey (l : ScorerInputs) (k k' : String) (v d : TopVal)
    (h : (k == k') = false) :
    topGetD (pySetKey l k v) k' d = topGetD l k' d := by
  unfold topGetD
  rw [pyDictLookup_setKey _ _ _ _ h]

theorem topGetGroup_delKey (l : ScorerInputs) (k k' : String) (h : k ≠ k') :
    topGetGroup (pyDelKey l k) k' = topGetGroup l k' := by
  unfold topGetGroup
  rw [pyDictLookup_delKey _ _ _ h]

theorem topGetD_delKey (l : ScorerInputs) (k k' : String) (d : TopVal) (h : k ≠ k') :
    topGetD (pyDelKey l k) k' d = topGetD l k' d := by
  unfold topGetD
  rw [pyDictLookup_delKey _ _ _ h]

/-- `assess_context` never reads the key `"opportunities"`, so overwriting it
changes nothing at all. -/
theorem assess_context_setKey_opp (inputs : ScorerInputs) (v : TopVal) :
    assess_context (pySetKey inputs "opportunities" v) = assess_context inputs := by
  unfold assess_context assess_beneficial_opportunities
  rw [topGetGroup_setKey _ _ _ _ (by decide), topGetGroup_setKey _ _ _ _ (by decide),
    topGetGroup_setKey _ _ _ _ (by decide), topGetD_setKey _ _ _ _ _ (by decide),
    topGetD_setKey _ _ _ _ _ (by decide), topGetD_setKey _ _ _ _ _ (by decide),
    topGetD_setKey _ _ _ _ _ (by decide)]

/-- Likewise for deleting the key `"opportunities"`. -/
theorem assess_context_delKey_opp (inputs : ScorerInputs) :
    assess_context (pyDelKey inputs "opportunities") = assess_context inputs := by
  unfold assess_context assess_beneficial_opportunities
  rw [topGetGroup_delKey _ _ _ (by decide), topGetGroup_delKey _ _ _ (by decide),
    topGetGroup_delKey _ _ _ (by decide), topGetD_delKey _ _ _ _ (by decide),
    topGetD_delKey _ _ _ _ (by decide), topGetD_delKey _ _ _ _ (by decide),
    topGetD_delKey _ _ _ _ (by decide)]

/-- Every confidence the evaluator produces lies in `[0,1]`: it is either a
value of `confidence_map` or the default `0.80`. -/
theorem conf_mem (q : String) (d : InvestigationData) :
    0 ≤ calculate_validation_confidence q d ∧ calculate_validation_confidence q d ≤ 1 := by
  unfold calculate_validation_confidence
  exact pyDictGetD_prop (fun x => 0 ≤ x ∧ x ≤ 1) confidence_map q 0.80 (by decide) (by norm_num)

/-- Per-question and mean confidences of a level run lie in `[0,1]`. -/
theorem run_level_mem (lvl : DoubtLevel) (d : InvestigationData) :
    (∀ r ∈ (run_level lvl d).doubt_validations,
        0 ≤ r.confidence_level ∧ r.confidence_level ≤ 1)
    ∧ 0 ≤ (run_level lvl d).overall_confidence
    ∧ (run_level lvl d).overall_confidence ≤ 1 := by
  have hmem : ∀ r ∈ (run_level lvl d).doubt_validations,
      0 ≤ r.confidence_level ∧ r.confidence_level ≤ 1 := by
    intro r hr
    unfold run_level at hr
    simp only [List.mem_map] at hr
    obtain ⟨p, hp, rfl⟩ := hr
    exact conf_mem p.2 d
  refine ⟨hmem, ?_⟩
  show 0 ≤ (run_level lvl d).overall_confidence ∧ (run_level lvl d).overall_confidence ≤ 1
  have hlen :
      (((run_level lvl d).doubt_validations.map fun r => r.confidence_level)).length
        = lvl.doubt_questions.length := by
    unfold run_level
    simp [List.length_map, List.enum_length]
  have := mean_mem ((run_level lvl d).doubt_validations.map fun r => r.confidence_level)
    lvl.doubt_questions.length
    (by
      intro x hx
      simp only [List.mem_map] at hx
      obtain ⟨r, hr, rfl⟩ := hx
      exact hmem r hr)
    hlen
  exact this

/-- The `investigation_data` argument is definitionally dropped by every
function it is passed to, so evaluation results cannot depend on it. -/
theorem validate_data_irrel (s : ValidatorState) (n : ℤ) (d d' : InvestigationData) :
    validate_doubt_level s n d = validate_doubt_level s n d' := rfl

/-- In-range evaluation takes the `else` branch and appends one result. -/
theorem validate_in_range (s : ValidatorState) (n : ℤ) (d : InvestigationData)
    (h1 : 1 ≤ n) (h2 : n ≤ 7) :
    validate_doubt_level s n d =
      Except.ok
        ({ validation_history := s.validation_history
             ++ [run_level (doubt_levels.getD (n - 1).toNat default) d]
           current_confidence := pySetKey s.current_confidence n
             (run_level (doubt_levels.getD (n - 1).toNat default) d).overall_confidence },
         run_level (doubt_levels.getD (n - 1).toNat default) d) := by
  unfold validate_doubt_level
  rw [if_neg (by omega)]

/-- Inversion of a successful `modulate_tone` call: the components it relates
to the inputs. -/
theorem modulate_tone_some_eq {st st' : VagusToneState} {context : ContextAssessment}
    {out : ModulationOutput} (h : modulate_tone st context = some (st', out)) :
    st' = { st with current_tone := adapt_tone st st.current_tone out.optimal_tone }
    ∧ out.current_tone = adapt_tone st st.current_tone out.optimal_tone
    ∧ out.optimal_tone = calculate_optimal_tone out.modulation_parameters
    ∧ calculate_heart_rate_modulation context
        = some out.modulation_parameters.heart_rate_influence
    ∧ calculate_inflammation_modulation context
        = some out.modulation_parameters.inflammation_response
    ∧ out.modulation_parameters.social_engagement_level = calculate_social_engagement context
    ∧ calculate_recovery_priority context
        = some out.modulation_parameters.recovery_prioritization := by
  rcases hrr : context.beneficial_opportunities.rest_recovery with q | g
  · simp only [modulate_tone, calculate_heart_rate_modulation,
      calculate_inflammation_modulation, calculate_recovery_priority, hrr,
      Option.bind_eq_bind, Option.some_bind, Option.pure_def, Option.some.injEq,
      Prod.mk.injEq] at h
    obtain ⟨h1, h2⟩ := h
    subst h1
    subst h2
    refine ⟨rfl, rfl, rfl, ?_, ?_, rfl, ?_⟩ <;>
      simp only [calculate_heart_rate_modulation, calculate_inflammation_modulation,
        calculate_recovery_priority, hrr]
  · simp only [modulate_tone, calculate_heart_rate_modulation, hrr,
      Option.bind_eq_bind, Option.none_bind] at h
    exact Option.noConfusion h

/-- A successful per-factor calculation lands in `[0,1]`. -/
theorem heart_rate_mem {context : ContextAssessment} {x : ℚ}
    (h : calculate_heart_rate_modulation context = some x) : 0 ≤ x ∧ x ≤ 1 := by
  rcases hrr : context.beneficial_opportunities.rest_recovery with q | g
  · simp only [calculate_heart_rate_modulation, hrr, Option.some.injEq] at h
    rw [← h]
    exact npClip01_mem _
  · simp only [calculate_heart_rate_modulation, hrr] at h
    exact Option.noConfusion h

theorem inflammation_mem {context : ContextAssessment} {x : ℚ}
    (h : calculate_inflammation_modulation context = some x) : 0 ≤ x ∧ x ≤ 1 := by
  rcases hrr : context.beneficial_opportunities.rest_recovery with q | g
  · simp only [calculate_inflammation_modulation, hrr, Option.some.injEq] at h
    rw [← h]
    exact npClip01_mem _
  · simp only [calculate_inflammation_modulation, hrr] at h
    exact Option.noConfusion h

theorem recovery_mem {context : ContextAssessment} {x : ℚ}
    (h : calculate_recovery_priority context = some x) : 0 ≤ x ∧ x ≤ 1 := by
  rcases hrr : context.beneficial_opportunities.rest_recovery with q | g
  · simp only [calculate_recovery_priority, hrr, Option.some.injEq] at h
    rw [← h]
    exact npClip01_mem _
  · simp only [calculate_recovery_priority, hrr] at h
    exact Option.noConfusion h

/-- The exponential smoothing step moves from `c` toward `t` without
overshooting, for any adaptation rate in `(0,1]` and clamped target. -/
theorem adapt_between (c t r : ℚ) (hr0 : 0 < r) (hr1 : r ≤ 1) (ht0 : 0 ≤ t) (ht1 : t ≤ 1) :
    (c ≤ t → c ≤ npClip (c + (t - c) * r) 0 1 ∧ npClip (c + (t - c) * r) 0 1 ≤ t)
    ∧ (t ≤ c → t ≤ npClip (c + (t - c) * r) 0 1 ∧ npClip (c + (t - c) * r) 0 1 ≤ c) := by
  constructor
  · intro hct
    have hv1 : c ≤ c + (t - c) * r := by nlinarith
    have hv2 : c + (t - c) * r ≤ t := by nlinarith
    unfold npClip
    exact ⟨le_min (le_trans hct ht1) (le_max_of_le_right hv1),
      min_le_of_right_le (max_le ht0 hv2)⟩
  · intro htc
    have hv1 : c + (t - c) * r ≤ c := by nlinarith
    have hv2 : t ≤ c + (t - c) * r := by nlinarith
    unfold npClip
    exact ⟨le_min ht1 (le_max_of_le_right hv2),
      min_le_of_right_le (max_le (le_trans ht0 htc) hv1)⟩

/-! ## Claims -/

/-- C1, counterexample to the claim as stated: on a fresh evaluator with a
concrete (empty) investigation payload, evaluating level 1 yields 4 question
results whose mean confidence is exactly `0.80` — which is not the claimed
`0.90` — and status `"REQUIRES_REFINEMENT"` (the failing status), not the
passing status `"VALIDATED"`. -/
theorem C1_counterexample :
    (validate_doubt_level freshValidator 1 []).map
        (fun p => (p.2.doubt_validations.length, p.2.overall_confidence, p.2.validation_status))
      = Except.ok (4, 0.80, "REQUIRES_REFINEMENT")
    ∧ (0.80 : ℚ) ≠ 9 / 10
    ∧ "REQUIRES_REFINEMENT" ≠ "VALIDATED" :=
  ⟨by decide, by decide, by decide⟩

/-- C1, amended: on a fresh evaluator, for every investigation-data argument,
evaluating level 1 returns a `LevelResult` containing exactly 4 question
results whose mean confidence is exactly `0.80` (every question falls back to
the default confidence, because the confidence table is consulted by
exact-match lookup of the full question text and never matches), with status
`"REQUIRES_REFINEMENT"` against the level-1 threshold `0.85`. -/
theorem C1_fresh_level1_eval (d : InvestigationData) :
    (validate_doubt_level freshValidator 1 d).map
        (fun p => (p.2.doubt_validations.length, p.2.overall_confidence, p.2.validation_status))
      = Except.ok (4, 0.80, "REQUIRES_REFINEMENT") := by
  rw [validate_data_irrel freshValidator 1 d []]
  decide

/-- C2, counterexample to the claim as stated: for the first level-1 question
the phrase `"biological vagus nerve function"` *is* a substring of the
question text and the confidence table pairs that phrase with `0.95`, so
substring-resolution as claimed would yield `0.95`; the code's exact-key
lookup of the full question text yields the default `0.80` instead. -/
theorem C2_counterexample :
    pyIn "biological vagus nerve function" q1 = true
    ∧ resolveBySubstring confidence_map q1 0.80 = 0.95
    ∧ calculate_validation_confidence q1 [] = 0.80
    ∧ (0.95 : ℚ) ≠ 0.80 :=
  ⟨by decide, by decide, by decide, by decide⟩

/-- C2, amended: the *outcome* string is indeed resolved by first-match-wins
substring containment over the fixed ordered table (default
`"VERIFIED - Validation criteria satisfied through systematic
investigation"`), but the *confidence* is resolved by exact-match dict lookup
of the full question text with default `0.80` — and since no level question
equals a table key, every question of the seven levels gets confidence
`0.80`. -/
theorem C2_outcome_substring_confidence_exact (q : String) (d : InvestigationData) :
    determine_validation_outcome q d
      = resolveBySubstring outcome_table q
          "VERIFIED - Validation criteria satisfied through systematic investigation"
    ∧ ∀ lvl ∈ doubt_levels, ∀ q' ∈ lvl.doubt_questions,
        calculate_validation_confidence q' d = 0.80 := by
  constructor
  · rfl
  · have hall : ∀ q'' ∈ (doubt_levels.map fun lvl => lvl.doubt_questions).flatten,
        pyDictGetD confidence_map q'' (0.80 : ℚ) = 0.80 := by decide
    intro lvl hlvl q' hq'
    exact hall q' (List.mem_flatten.mpr ⟨lvl.doubt_questions, List.mem_map_of_mem _ hlvl, hq'⟩)

/-- C2, witness: the amended claim applied at the first level-1 question. -/
theorem C2_witness :
    determine_validation_outcome q1 sampleData
      = resolveBySubstring outcome_table q1
          "VERIFIED - Validation criteria satisfied through systematic investigation"
    ∧ calculate_validation_confidence q1 sampleData = 0.80 :=
  ⟨(C2_outcome_substring_confidence_exact q1 sampleData).1,
   (C2_outcome_substring_confidence_exact q1 sampleData).2
     (doubt_levels.getD 0 default) (by decide) q1 (by decide)⟩

/-- C3, counterexample to the claim as stated: scoring the spec's example
input on a fresh scorer yields the combined target `0.5125`, which is *not*
strictly less than `0.5` (the nested `opportunities` group is never read, so
`rest_recovery` keeps its default `0.6`). -/
theorem C3_counterexample :
    combinedTargetOf c3_inputs initial_tone_state = some 0.5125
    ∧ ¬ ((0.5125 : ℚ) < 0.5) :=
  ⟨by decide, by decide⟩

/-- C3, amended: scoring the example input mapping on a fresh scorer yields a
combined target of exactly `0.5125`, which is at least `0.5`. -/
theorem C3_combined_target_value :
    combinedTargetOf c3_inputs initial_tone_state = some 0.5125
    ∧ (0.5 : ℚ) ≤ 0.5125 :=
  ⟨by decide, by norm_num⟩

/-- C4: on every evaluator state whose history is empty, requesting the
summary report yields the error result, not a report. -/
theorem C4_empty_history_error (s : ValidatorState) (h : s.validation_history = []) :
    generate_maximum_truth_report s = Except.error "No validation history available" := by
  unfold generate_maximum_truth_report
  rw [h]
  rfl

/-- C4, witness: the theorem applied to a freshly constructed evaluator. -/
theorem C4_witness :
    generate_maximum_truth_report freshValidator
      = Except.error "No validation history available" :=
  C4_empty_history_error freshValidator rfl

/-- C5: for every level index outside `[1,7]` evaluation fails with the
range error, and for every index inside `[1,7]` it succeeds with a
`LevelResult`. -/
theorem C5_level_range (n : ℤ) (d : InvestigationData) (s : ValidatorState) :
    ((n < 1 ∨ 7 < n) → ∃ msg, validate_doubt_level s n d = Except.error msg)
    ∧ (1 ≤ n → n ≤ 7 → ∃ out, validate_doubt_level s n d = Except.ok out) := by
  constructor
  · intro h
    exact ⟨"Doubt level must be between 1 and 7", by
      unfold validate_doubt_level
      rw [if_pos h]⟩
  · intro h1 h2
    exact ⟨_, validate_in_range s n d h1 h2⟩

/-- C5, witness: the theorem applied at the out-of-range indices 0 and 8 and
at the in-range index 3. -/
theorem C5_witness :
    (∃ msg, validate_doubt_level freshValidator 0 sampleData = Except.error msg)
    ∧ (∃ msg, validate_doubt_level freshValidator 8 sampleData = Except.error msg)
    ∧ (∃ out, validate_doubt_level freshValidator 3 sampleData = Except.ok out) :=
  ⟨(C5_level_range 0 sampleData freshValidator).1 (by decide),
   (C5_level_range 8 sampleData freshValidator).1 (by decide),
   (C5_level_range 3 sampleData freshValidator).2 (by decide) (by decide)⟩

/-- C6: every value either utility produces lies in `[0,1]`: the four
per-factor scores, the combined target and the smoothed current tone of any
successful scoring call; every per-question confidence; and the per-question
confidences and mean confidence of every in-range evaluation. -/
theorem C6_unit_interval :
    (∀ (st : VagusToneState) (context : ContextAssessment) (st' : VagusToneState)
        (out : ModulationOutput), modulate_tone st context = some (st', out) →
        (0 ≤ out.modulation_parameters.heart_rate_influence
            ∧ out.modulation_parameters.heart_rate_influence ≤ 1)
        ∧ (0 ≤ out.modulation_parameters.inflammation_response
            ∧ out.modulation_parameters.inflammation_response ≤ 1)
        ∧ (0 ≤ out.modulation_parameters.social_engagement_level
            ∧ out.modulation_parameters.social_engagement_level ≤ 1)
        ∧ (0 ≤ out.modulation_parameters.recovery_prioritization
            ∧ out.modulation_parameters.recovery_prioritization ≤ 1)
        ∧ (0 ≤ out.optimal_tone ∧ out.optimal_tone ≤ 1)
        ∧ (0 ≤ st'.current_tone ∧ st'.current_tone ≤ 1))
    ∧ (∀ (q : String) (d : InvestigationData),
        0 ≤ calculate_validation_confidence q d ∧ calculate_validation_confidence q d ≤ 1)
    ∧ (∀ (n : ℤ) (d : InvestigationData) (s : ValidatorState), 1 ≤ n → n ≤ 7 →
        ∃ out, validate_doubt_level s n d = Except.ok out
          ∧ (∀ r ∈ out.2.doubt_validations, 0 ≤ r.confidence_level ∧ r.confidence_level ≤ 1)
          ∧ 0 ≤ out.2.overall_confidence ∧ out.2.overall_confidence ≤ 1) := by
  refine ⟨?_, conf_mem, ?_⟩
  · intro st context st' out h
    obtain ⟨h1, h2, h3, h4, h5, h6, h7⟩ := modulate_tone_some_eq h
    refine ⟨heart_rate_mem h4, inflammation_mem h5, ?_, recovery_mem h7, ?_, ?_⟩
    · rw [h6]
      unfold calculate_social_engagement
      exact npClip01_mem _
    · rw [h3]
      unfold calculate_optimal_tone
      exact npClip01_mem _
    · rw [h1]
      show 0 ≤ adapt_tone st st.current_tone out.optimal_tone
        ∧ adapt_tone st st.current_tone out.optimal_tone ≤ 1
      unfold adapt_tone
      exact npClip01_mem _
  · intro n d s h1 h2
    exact ⟨_, validate_in_range s n d h1 h2,
      (run_level_mem _ d).1, (run_level_mem _ d).2.1, (run_level_mem _ d).2.2⟩

/-- C6, witness: the theorem applied to the concrete scoring call on
`sampleContext`, to level-1 question 1, and to the level-1 evaluation. -/
theorem C6_witness :
    ((0 ≤ samplePair.2.modulation_parameters.heart_rate_influence
        ∧ samplePair.2.modulation_parameters.heart_rate_influence ≤ 1)
      ∧ (0 ≤ samplePair.2.modulation_parameters.inflammation_response
          ∧ samplePair.2.modulation_parameters.inflammation_response ≤ 1)
      ∧ (0 ≤ samplePair.2.modulation_parameters.social_engagement_level
          ∧ samplePair.2.modulation_parameters.social_engagement_level ≤ 1)
      ∧ (0 ≤ samplePair.2.modulation_parameters.recovery_prioritization
          ∧ samplePair.2.modulation_parameters.recovery_prioritization ≤ 1)
      ∧ (0 ≤ samplePair.2.optimal_tone ∧ samplePair.2.optimal_tone ≤ 1)
      ∧ (0 ≤ samplePair.1.current_tone ∧ samplePair.1.current_tone ≤ 1))
    ∧ (0 ≤ calculate_validation_confidence q1 sampleData
        ∧ calculate_validation_confidence q1 sampleData ≤ 1)
    ∧ (∃ out, validate_doubt_level freshValidator 1 sampleData = Except.ok out
        ∧ (∀ r ∈ out.2.doubt_validations, 0 ≤ r.confidence_level ∧ r.confidence_level ≤ 1)
        ∧ 0 ≤ out.2.overall_confidence ∧ out.2.overall_confidence ≤ 1) :=
  ⟨C6_unit_interval.1 initial_tone_state sampleContext samplePair.1 samplePair.2 (by decide),
   C6_unit_interval.2.1 q1 sampleData,
   C6_unit_interval.2.2 1 sampleData freshValidator (by decide) (by decide)⟩

/-- C7: the per-factor scores and the combined target depend only on the
context, not on the tone state (so two calls with identical inputs agree on
them), and with an adaptation rate in `(0,1]` each call moves the smoothed
current monotonically toward the target without overshooting it. -/
theorem C7_scores_state_independent_and_monotone :
    (∀ (stA stB : VagusToneState) (context : ContextAssessment)
        (outA outB : VagusToneState × ModulationOutput),
        modulate_tone stA context = some outA → modulate_tone stB context = some outB →
        outA.2.modulation_parameters = outB.2.modulation_parameters
          ∧ outA.2.optimal_tone = outB.2.optimal_tone)
    ∧ (∀ (st : VagusToneState) (context : ContextAssessment) (st' : VagusToneState)
        (out : ModulationOutput),
        0 < st.adaptation_rate → st.adaptation_rate ≤ 1 →
        modulate_tone st context = some (st', out) →
        (st.current_tone ≤ out.optimal_tone →
            st.current_tone ≤ st'.current_tone ∧ st'.current_tone ≤ out.optimal_tone)
        ∧ (out.optimal_tone ≤ st.current_tone →
            out.optimal_tone ≤ st'.current_tone ∧ st'.current_tone ≤ st.current_tone)) := by
  constructor
  · intro stA stB context outA outB hA hB
    obtain ⟨_, _, hA3, hA4, hA5, hA6, hA7⟩ := modulate_tone_some_eq hA
    obtain ⟨_, _, hB3, hB4, hB5, hB6, hB7⟩ := modulate_tone_some_eq hB
    have hparams : outA.2.modulation_parameters = outB.2.modulation_parameters := by
      ext
      · exact Option.some.inj (hA4.symm.trans hB4)
      · exact Option.some.inj (hA5.symm.trans hB5)
      · exact hA6.trans hB6.symm
      · exact Option.some.inj (hA7.symm.trans hB7)
    exact ⟨hparams, by rw [hA3, hB3, hparams]⟩
  · intro st context st' out hr0 hr1 h
    obtain ⟨h1, _, h3, _, _, _, _⟩ := modulate_tone_some_eq h
    have ht : 0 ≤ out.optimal_tone ∧ out.optimal_tone ≤ 1 := by
      rw [h3]
      unfold calculate_optimal_tone
      exact npClip01_mem _
    have hb := adapt_between st.current_tone out.optimal_tone st.adaptation_rate
      hr0 hr1 ht.1 ht.2
    constructor
    · intro hct
      rw [h1]
      exact hb.1 hct
    · intro htc
      rw [h1]
      exact hb.2 htc

/-- C7, witness: the theorem applied to scoring calls on the same context
from two different tone states, and the monotone step from the fresh state. -/
theorem C7_witness :
    (samplePair.2.modulation_parameters = samplePair2.2.modulation_parameters
      ∧ samplePair.2.optimal_tone = samplePair2.2.optimal_tone)
    ∧ ((initial_tone_state.current_tone ≤ samplePair.2.optimal_tone →
          initial_tone_state.current_tone ≤ samplePair.1.current_tone
            ∧ samplePair.1.current_tone ≤ samplePair.2.optimal_tone)
        ∧ (samplePair.2.optimal_tone ≤ initial_tone_state.current_tone →
          samplePair.2.optimal_tone ≤ samplePair.1.current_tone
            ∧ samplePair.1.current_tone ≤ initial_tone_state.current_tone)) :=
  ⟨C7_scores_state_independent_and_monotone.1 initial_tone_state altToneState sampleContext
     samplePair samplePair2 (by decide) (by decide),
   C7_scores_state_independent_and_monotone.2 initial_tone_state sampleContext
     samplePair.1 samplePair.2 (by decide) (by decide) (by decide)⟩

/-- C8: a successful scoring call updates `current_tone` to
`clip(current + (target - current) * adaptation_rate, 0, 1)` and leaves
`baseline_tone`, `adaptation_rate` and `context_sensitivity` unchanged. -/
theorem C8_smoothing_only_mutation (st : VagusToneState) (context : ContextAssessment)
    (st' : VagusToneState) (out : ModulationOutput)
    (h : modulate_tone st context = some (st', out)) :
    st'.current_tone
        = npClip (st.current_tone + (out.optimal_tone - st.current_tone) * st.adaptation_rate) 0 1
    ∧ st'.baseline_tone = st.baseline_tone
    ∧ st'.adaptation_rate = st.adaptation_rate
    ∧ st'.context_sensitivity = st.context_sensitivity := by
  obtain ⟨h1, _, _, _, _, _, _⟩ := modulate_tone_some_eq h
  subst h1
  exact ⟨rfl, rfl, rfl, rfl⟩

/-- C8, witness: the theorem applied to the concrete scoring call on
`sampleContext` from the fresh tone state. -/
theorem C8_witness :
    samplePair.1.current_tone
        = npClip (initial_tone_state.current_tone
            + (samplePair.2.optimal_tone - initial_tone_state.current_tone)
              * initial_tone_state.adaptation_rate) 0 1
    ∧ samplePair.1.baseline_tone = initial_tone_state.baseline_tone
    ∧ samplePair.1.adaptation_rate = initial_tone_state.adaptation_rate
    ∧ samplePair.1.context_sensitivity = initial_tone_state.context_sensitivity :=
  C8_smoothing_only_mutation initial_tone_state sampleContext samplePair.1 samplePair.2
    (by decide)

/-- C9: for every in-range level index, evaluation returns identical results
(and identical successor states) for any two investigation-data arguments —
the parameter is accepted but never consulted. -/
theorem C9_investigation_data_ignored (n : ℤ) (d d' : InvestigationData) (s : ValidatorState)
    (h1 : 1 ≤ n) (h2 : n ≤ 7) :
    validate_doubt_level s n d = validate_doubt_level s n d' :=
  validate_data_irrel s n d d'

/-- C9, witness: the theorem applied at level 1 to the harness's payload and
to the empty payload. -/
theorem C9_witness :
    validate_doubt_level freshValidator 1 sampleData
      = validate_doubt_level freshValidator 1 [] :=
  C9_investigation_data_ignored 1 sampleData [] freshValidator (by decide) (by decide)

/-- C10: the beneficial-opportunities scores are read from the *top-level*
input mapping at the keys `bonding`, `learning`, `rest`, `growth` with
defaults `0.7`, `0.8`, `0.6`, `0.5`; a nested `opportunities` group is never
read, so adding/overwriting or removing such a group never changes any
beneficial-opportunities score. -/
theorem C10_opportunities_group_never_read (inputs : ScorerInputs) :
    (∀ context, assess_context inputs = some context →
        context.beneficial_opportunities =
          { social_bonding := topGetD inputs "bonding" (TopVal.num 0.7)
            learning_opportunities := topGetD inputs "learning" (TopVal.num 0.8)
            rest_recovery := topGetD inputs "rest" (TopVal.num 0.6)
            growth_potential := topGetD inputs "growth" (TopVal.num 0.5) })
    ∧ (∀ g : List (String × ℚ),
        (assess_context (pySetKey inputs "opportunities" (TopVal.group g))).map
            (fun c => c.beneficial_opportunities)
          = (assess_context inputs).map (fun c => c.beneficial_opportunities))
    ∧ (assess_context (pyDelKey inputs "opportunities")).map
          (fun c => c.beneficial_opportunities)
        = (assess_context inputs).map (fun c => c.beneficial_opportunities) := by
  refine ⟨?_, ?_, ?_⟩
  · intro context h
    unfold assess_context at h
    rcases hp : topGetGroup inputs "physiological" with _ | gp
    · simp only [hp, Option.bind_eq_bind, Option.none_bind] at h
      exact Option.noConfusion h
    · rcases hs : topGetGroup inputs "social" with _ | gs
      · simp only [hp, hs, Option.bind_eq_bind, Option.some_bind, Option.none_bind] at h
        exact Option.noConfusion h
      · rcases he : topGetGroup inputs "environmental" with _ | ge
        · simp only [hp, hs, he, Option.bind_eq_bind, Option.some_bind,
            Option.none_bind] at h
          exact Option.noConfusion h
        · simp only [hp, hs, he, Option.bind_eq_bind, Option.some_bind, Option.pure_def,
            Option.some.injEq] at h
          subst h
          rfl
  · intro g
    rw [assess_context_setKey_opp]
  · rw [assess_context_delKey_opp]

/-- C10, witness: the theorem applied to the example input mapping, whose
`opportunities` group is overwritten by a group that *does* carry a
`rest_recovery` entry. -/
theorem C10_witness :
    sampleContext.beneficial_opportunities =
      { social_bonding := topGetD c3_inputs "bonding" (TopVal.num 0.7)
        learning_opportunities := topGetD c3_inputs "learning" (TopVal.num 0.8)
        rest_recovery := topGetD c3_inputs "rest" (TopVal.num 0.6)
        growth_potential := topGetD c3_inputs "growth" (TopVal.num 0.5) }
    ∧ (assess_context (pySetKey c3_inputs "opportunities"
          (TopVal.group [("rest_recovery", 0.9)]))).map
        (fun c => c.beneficial_opportunities)
      = (assess_context c3_inputs).map (fun c => c.beneficial_opportunities) :=
  ⟨(C10_opportunities_group_never_read c3_inputs).1 sampleContext (by decide),
   (C10_opportunities_group_never_read c3_inputs).2.1 [("rest_recovery", 0.9)]⟩

end VagusRepo
